import Mathlib

/-!
Formal model of the DeepHydroForecasting client core (App.js).

The repository is a React dashboard; its only non-trivial client logic is
the series merge-and-format pipeline (combinedChartData), the CSV/Excel
exporter (downloadCSV), the append-only audit log (userActions / addAction),
and the fetch handlers (handleFileUpload, handleAnalyzeData, handleForecast,
handleGenerateReport, handleChatSubmit).  This file embeds those functions
shallowly:

* a JS Date instant is its epoch-millisecond value, an Int (Date.getTime);
  date-fns format strings are reimplemented over that representation using
  the standard civil-from-days calendar algorithm (UTC; the time-zone of the
  browser is not modelled);
* numeric levels are modelled as Int (the merge and export logic never does
  arithmetic on them; integral JS numbers print exactly as Int.toString);
* the asynchronous fetch calls are modelled by a FetchOutcome argument: a
  handler is the state transition observed after the fetch settles, with
  outcome ok / httpError (non-2xx response) / networkError (rejected fetch);
  response payloads arrive already parsed (parseISO / parseFloat are not
  modelled);
* JS Array.prototype.sort with comparator (a, b) => a.date - b.date is a
  stable sort by date; it is modelled by List.mergeSort with the Boolean
  comparator dateLE, which core Lean proves stable in the same sense;
* the months input value parseInt(e.target.value) is an Option Int: some n
  for a numeric field, none for the NaN produced by a cleared field
  (parseInt of the empty string); Math.max(1, Math.min(12, NaN)) is NaN, so
  the clamp maps none to none, and a NaN months field is serialized by
  JSON.stringify as null in the issued request body;
* a thrown JS exception is modelled by Except.error.
-/

/-- Two-digit zero padding, as used by the date-fns tokens dd, MM and yy. -/
def pad2 (n : Nat) : String :=
  if n < 10 then "0" ++ toString n else toString n

/-- English month abbreviation used by the date-fns token MMM. -/
def monthAbbrev : Nat → String
  | 1 => "Jan" | 2 => "Feb" | 3 => "Mar" | 4 => "Apr"
  | 5 => "May" | 6 => "Jun" | 7 => "Jul" | 8 => "Aug"
  | 9 => "Sep" | 10 => "Oct" | 11 => "Nov" | 12 => "Dec"
  | _ => ""

/-- Gregorian calendar date (year, month, day) of a day count relative to
1970-01-01, by the standard civil-from-days algorithm. -/
def civilFromDays (day : Int) : Int × Nat × Nat :=
  let z : Int := day + 719468
  let era : Int := Int.fdiv z 146097
  let doe : Nat := (z - era * 146097).toNat
  let yoe : Nat := (doe - doe / 1460 + doe / 36524 - doe / 146096) / 365
  let doy : Nat := doe - (365 * yoe + yoe / 4 - yoe / 100)
  let mp : Nat := (5 * doy + 2) / 153
  let d : Nat := doy - (153 * mp + 2) / 5 + 1
  let m : Nat := if mp < 10 then mp + 3 else mp - 9
  (((yoe : Int) + era * 400) + (if m ≤ 2 then 1 else 0), m, d)

/-- Milliseconds in one day. -/
def msPerDay : Int := 86400000

/-- Day count of an epoch-millisecond instant (JS Date truncates toward
negative infinity when extracting the civil day). -/
def daysFromMs (ms : Int) : Int := Int.fdiv ms msPerDay

/-- Rendering of format(value, "yyyy-MM-dd") from downloadCSV / downloadExcel. -/
def formatYYYYMMDD (ms : Int) : String :=
  let c := civilFromDays (daysFromMs ms)
  toString c.1 ++ "-" ++ pad2 c.2.1 ++ "-" ++ pad2 c.2.2

/-- Rendering of format(new Date(item.date), "MMM yy") from combinedChartData. -/
def formatMMMYY (ms : Int) : String :=
  let c := civilFromDays (daysFromMs ms)
  monthAbbrev c.2.1 ++ " " ++ pad2 (Int.emod c.1 100).toNat

/-- Historical sample: one row of the data state, produced by handleFileUpload
from the upload response ({ date: parseISO(row.date), level: parseFloat(row.level) }). -/
structure HistoricalPoint where
  date : Int
  level : Int
deriving DecidableEq

/-- Forecast sample: one row of forecastResults.forecast, produced by
handleForecast from the forecast response. -/
structure ForecastPoint where
  date : Int
  level : Int
  lower_ci : Int
  upper_ci : Int
deriving DecidableEq

/-- Accuracy metrics returned by the forecast endpoint. -/
structure ForecastMetrics where
  mae : Int
  rmse : Int
  mape : Int
deriving DecidableEq

/-- Value of the forecastResults state: { forecast: [...], metrics: {...} }. -/
structure ForecastResults where
  forecast : List ForecastPoint
  metrics : ForecastMetrics
deriving DecidableEq

/-- Forecast list held by an optional forecastResults value; an absent value
contributes the empty list to the chart (the ternary in combinedChartData). -/
def forecastListOf : Option ForecastResults → List ForecastPoint
  | some fr => fr.forecast
  | none => []

/-- Intermediate element of the combinedChartData pipeline, before the final
display-formatting map: the object literals built from data and from
forecastResults.forecast.  Fields absent from a JS literal are modelled as
none (for the interval fields) and false (for the tags). -/
structure ChartEntry where
  date : Int
  level : Int
  lower_ci : Option Int := none
  upper_ci : Option Int := none
  isHistorical : Bool := false
  isForecast : Bool := false
deriving DecidableEq

/-- Final element of combinedChartData: the spread of a ChartEntry whose date
field has been overwritten by the display label (a String). -/
structure DisplayEntry where
  date : String
  level : Int
  lower_ci : Option Int
  upper_ci : Option Int
  isHistorical : Bool
  isForecast : Bool
deriving DecidableEq

/-- Literal { date: d.date.getTime(), level: d.level, isHistorical: true }. -/
def tagHistorical (d : HistoricalPoint) : ChartEntry :=
  { date := d.date, level := d.level, isHistorical := true }

/-- Literal { date: f.date.getTime(), level: f.level, lower_ci: f.lower_ci,
upper_ci: f.upper_ci, isForecast: true }. -/
def tagForecast (f : ForecastPoint) : ChartEntry :=
  { date := f.date, level := f.level, lower_ci := some f.lower_ci,
    upper_ci := some f.upper_ci, isForecast := true }

/-- Boolean comparator modelling the JS comparator (a, b) => a.date - b.date. -/
def dateLE (a b : ChartEntry) : Bool := a.date ≤ b.date

/-- Sorted merged sequence of combinedChartData before its final formatting
map: data tagged historical, concatenated with the forecast rows tagged
forecast, stably sorted by the underlying date instant. -/
def chartEntriesOf (data : List HistoricalPoint) (forecastResults : Option ForecastResults) :
    List ChartEntry :=
  ((data.map tagHistorical) ++ (forecastListOf forecastResults).map tagForecast).mergeSort dateLE

/-- Final map of the pipeline: { ...item, date: format(new Date(item.date), "MMM yy") }. -/
def formatChartEntry (e : ChartEntry) : DisplayEntry :=
  { date := formatMMMYY e.date, level := e.level, lower_ci := e.lower_ci,
    upper_ci := e.upper_ci, isHistorical := e.isHistorical, isForecast := e.isForecast }

/-- Embedding of the combinedChartData constant of App.js. -/
def combinedChartData (data : List HistoricalPoint) (forecastResults : Option ForecastResults) :
    List DisplayEntry :=
  (chartEntriesOf data forecastResults).map formatChartEntry

/-- Embedding of forecastPlotData = combinedChartData.filter(d => d.isForecast). -/
def forecastPlotData (data : List HistoricalPoint) (forecastResults : Option ForecastResults) :
    List DisplayEntry :=
  (combinedChartData data forecastResults).filter (·.isForecast)

/-- Scalar cell of an exported record: a Date object, a number, or a string.
Only integral numbers are represented; the exporter never computes on them. -/
inductive CellValue where
  | cdate (ms : Int)
  | cnum (n : Int)
  | cstr (s : String)
deriving DecidableEq

/-- Rendering of one cell by downloadCSV: a Date is formatted yyyy-MM-dd, any
other value is rendered by its natural string form (JS implicit toString). -/
def renderCell : CellValue → String
  | .cdate ms => formatYYYYMMDD ms
  | .cnum n => toString n
  | .cstr s => s

/-- Exported record: a JS object as an ordered key-value list (Object.keys and
Object.values enumerate a JS object in its insertion order). -/
abbrev CsvRecord := List (String × CellValue)

/-- Comma-joined key list: Object.keys(record).join(","). -/
def csvHeader (r : CsvRecord) : String :=
  String.intercalate "," (r.map Prod.fst)

/-- Comma-joined rendered value list of one row: Object.values(row).map(...).join(","). -/
def csvRowOf (r : CsvRecord) : String :=
  String.intercalate "," (r.map (fun kv => renderCell kv.2))

/-- Embedding of downloadCSV.  On a nonempty sequence it returns the produced
file text together with the success message shown to the user.  On the empty
sequence the JS expression Object.keys(dataToDownload[0]) evaluates
Object.keys(undefined), which throws a TypeError before any user-visible
report; the throw is modelled as Except.error. -/
def downloadCSV (dataToDownload : List CsvRecord) : Except String (String × String) :=
  match dataToDownload with
  | [] => Except.error "TypeError"
  | r0 :: _ =>
    Except.ok
      (String.intercalate "\n" (csvHeader r0 :: dataToDownload.map csvRowOf),
       "CSV downloaded.")

/-- Rendering of the field of record r named k, by key lookup.  Used only by
the specification-side description of the exporter. -/
def lookupRender (r : CsvRecord) (k : String) : String :=
  match r.lookup k with
  | some v => renderCell v
  | none => ""

/-- Modelled from the spec: one delimited-text line holding the comma-joined
field values of record r taken in the key order given by keys. -/
def specCsvLine (keys : List String) (r : CsvRecord) : String :=
  String.intercalate "," (keys.map (lookupRender r))

/-- Modelled from the spec: the whole delimited-text export of r0 :: rest, a
header line of the first record keys followed by one line per record with the
values in the first record key order. -/
def specCsvText (r0 : CsvRecord) (rest : List CsvRecord) : String :=
  String.intercalate "\n"
    (String.intercalate "," (r0.map Prod.fst) ::
      (r0 :: rest).map (specCsvLine (r0.map Prod.fst)))

/-- Entry of the global userActions array: { timestamp, actionType, details }.
The ISO timestamp string of new Date().toISOString() is represented by the
underlying instant.  Details values are carried as rendered strings; no core
logic ever inspects them. -/
structure ActionLogEntry where
  timestamp : Int
  actionType : String
  details : List (String × String)
deriving DecidableEq

/-- Embedding of addAction: userActions.push({ timestamp, actionType, details }).
It is a total function: the append never fails. -/
def addAction (log : List ActionLogEntry) (timestamp : Int) (actionType : String)
    (details : List (String × String)) : List ActionLogEntry :=
  log ++ [{ timestamp := timestamp, actionType := actionType, details := details }]

/-- Embedding of the admin-dashboard read userActions.slice().reverse(): a
snapshot of the log in reverse-insertion order. -/
def listUserActions (log : List ActionLogEntry) : List ActionLogEntry :=
  log.reverse

/-- React state of the App component (the useState hooks, plus the module-level
userActions array). -/
structure AppState where
  selectedFile : Option String
  data : List HistoricalPoint
  analysisResults : Option String
  forecastResults : Option ForecastResults
  forecastMonths : Option Int
  reportLanguage : String
  chatInput : String
  chatHistory : List (String × String)
  userActions : List ActionLogEntry
  loading : Bool
  message : String
  messageType : String
deriving DecidableEq

/-- Initial state of the component: the useState initial values and the empty
module-level action array. -/
def initialState : AppState :=
  { selectedFile := none, data := [], analysisResults := none,
    forecastResults := none, forecastMonths := some 1, reportLanguage := "en",
    chatInput := "", chatHistory := [], userActions := [], loading := false,
    message := "", messageType := "info" }

/-- Settled result of a fetch call: a 2xx response with parsed payload, a
non-2xx response whose body carries an error string, or a rejected fetch
(network failure). -/
inductive FetchOutcome (α : Type) where
  | ok (payload : α)
  | httpError (error : String)
  | networkError (error : String)
deriving DecidableEq

/-- Boolean test that s ends with the given ending, modelling the JS call
file.name.endsWith(".xlsx"); stated over the character list of the string so
that it evaluates by kernel reduction. -/
def strEndsWith (s ending : String) : Bool :=
  ending.data.isSuffixOf s.data

/-- Prior-state triple named by the error-handling contract: the historical
data set, the forecast set and the audit log. -/
def stateTriple (s : AppState) :
    List HistoricalPoint × Option ForecastResults × List ActionLogEntry :=
  (s.data, s.forecastResults, s.userActions)

/-- Embedding of handleFileUpload.  The event carries an optional file; with no
file the handler returns at once.  Otherwise it first clears the previous
data, analysis, forecast and chat state, then checks the .xlsx extension, and
only then uploads; the upload response rows arrive as (instant, level) pairs. -/
def handleFileUpload (s : AppState) (now : Int) (file : Option String)
    (outcome : FetchOutcome (List (Int × Int))) : AppState :=
  match file with
  | none => s
  | some fileName =>
    let s1 : AppState :=
      { s with selectedFile := some fileName, data := [], analysisResults := none,
               forecastResults := none, chatHistory := [] }
    if strEndsWith fileName ".xlsx" then
      let s2 : AppState :=
        { s1 with loading := true, message := "Uploading file and processing...",
                  messageType := "info" }
      match outcome with
      | .ok rows =>
        let parsedData := rows.map (fun r => ({ date := r.1, level := r.2 } : HistoricalPoint))
        { s2 with loading := false, data := parsedData,
                  message := "File uploaded and parsed successfully!",
                  messageType := "success",
                  userActions := addAction s2.userActions now "File Upload"
                    [("fileName", fileName), ("rowCount", toString parsedData.length)] }
      | .httpError err =>
        { s2 with loading := false, message := "Upload failed: " ++ err,
                  messageType := "error" }
      | .networkError err =>
        { s2 with loading := false,
                  message := "Network error during upload: " ++ err,
                  messageType := "error" }
    else
      { s1 with message := "Please upload a valid .xlsx file.", messageType := "error" }

/-- Embedding of handleAnalyzeData: guard on empty data, then the fetch. -/
def handleAnalyzeData (s : AppState) (now : Int) (outcome : FetchOutcome String) : AppState :=
  if s.data.length = 0 then
    { s with message := "Please upload data first.", messageType := "error" }
  else
    match outcome with
    | .ok res =>
      { s with loading := false, analysisResults := some res,
               message := "Data analysis complete!", messageType := "success",
               userActions := addAction s.userActions now "Data Analysis" [] }
    | .httpError err =>
      { s with loading := false, message := "Analysis failed: " ++ err,
               messageType := "error" }
    | .networkError err =>
      { s with loading := false, message := "Network error during analysis: " ++ err,
               messageType := "error" }

/-- Body of the forecast request actually issued: { data, months }.  A months
field of none is the NaN value, which JSON.stringify serializes as null. -/
structure ForecastRequest where
  data : List HistoricalPoint
  months : Option Int
deriving DecidableEq

/-- Request issued by handleForecast, when one is issued at all: with empty
data the handler returns before fetching; otherwise months is the current
forecastMonths state, unchecked. -/
def forecastRequestOf (s : AppState) : Option ForecastRequest :=
  if s.data.length = 0 then none
  else some { data := s.data, months := s.forecastMonths }

/-- Rendering of the months value inside the audit details: a JS number by its
natural string form, the NaN value by its display form. -/
def monthsString : Option Int → String
  | some n => toString n
  | none => "NaN"

/-- Embedding of handleForecast: guard on empty data, then the fetch; a 2xx
response carries the forecast rows and the metrics. -/
def handleForecast (s : AppState) (now : Int)
    (outcome : FetchOutcome (List ForecastPoint × ForecastMetrics)) : AppState :=
  if s.data.length = 0 then
    { s with message := "Please upload data first.", messageType := "error" }
  else
    match outcome with
    | .ok res =>
      { s with loading := false,
               forecastResults := some { forecast := res.1, metrics := res.2 },
               message := "Forecasting complete!", messageType := "success",
               userActions := addAction s.userActions now "Forecasting"
                 [("months", monthsString s.forecastMonths)] }
    | .httpError err =>
      { s with loading := false, message := "Forecasting failed: " ++ err,
               messageType := "error" }
    | .networkError err =>
      { s with loading := false,
               message := "Network error during forecasting: " ++ err,
               messageType := "error" }

/-- Embedding of handleGenerateReport: guard on empty data, then the fetch; the
downloaded blob itself is not modelled. -/
def handleGenerateReport (s : AppState) (now : Int) (outcome : FetchOutcome Unit) : AppState :=
  if s.data.length = 0 then
    { s with message := "Please upload data first.", messageType := "error" }
  else
    match outcome with
    | .ok _ =>
      { s with loading := false,
               message := "Report generated and downloaded successfully!",
               messageType := "success",
               userActions := addAction s.userActions now "Report Generation"
                 [("language", s.reportLanguage)] }
    | .httpError err =>
      { s with loading := false, message := "Report generation failed: " ++ err,
               messageType := "error" }
    | .networkError err =>
      { s with loading := false,
               message := "Network error during report generation: " ++ err,
               messageType := "error" }

/-- Embedding of handleChatSubmit: a blank input returns at once; otherwise the
user message is appended to the chat history before the fetch. -/
def handleChatSubmit (s : AppState) (now : Int) (outcome : FetchOutcome String) : AppState :=
  if s.chatInput.trim = "" then s
  else
    let newChatHistory := s.chatHistory ++ [("user", s.chatInput)]
    let s1 : AppState :=
      { s with chatHistory := newChatHistory, chatInput := "", loading := true,
               message := "AI is typing...", messageType := "info" }
    match outcome with
    | .ok resp =>
      { s1 with loading := false, chatHistory := newChatHistory ++ [("model", resp)],
                message := "Response received!", messageType := "success",
                userActions := addAction s1.userActions now "AI Chat"
                  [("prompt", s.chatInput)] }
    | .httpError err =>
      { s1 with loading := false, message := "Chat error: " ++ err,
                messageType := "error" }
    | .networkError err =>
      { s1 with loading := false, message := "Network error during chat: " ++ err,
                messageType := "error" }

/-- Months input onChange of the first part_001 copy (min 1, max 24 on the
input element): setForecastMonths(parseInt(e.target.value)), no clamping.  The
argument is the parseInt result: some n for a numeric field, none for the NaN
of a cleared field. -/
def setForecastMonthsUnclamped (s : AppState) (value : Option Int) : AppState :=
  { s with forecastMonths := value }

/-- Months input onChange of src/frontend/src/App.js and of the second part_001
copy: setForecastMonths(Math.max(1, Math.min(12, parseInt(e.target.value)))).
Math.min and Math.max both return NaN on a NaN argument, so the clamp applies
only inside some and propagates none unchanged. -/
def setForecastMonthsClamped (s : AppState) (value : Option Int) : AppState :=
  { s with forecastMonths := value.map (fun n => max 1 (min 12 n)) }

/-! Helper lemmas about the merge comparator and the merged sequence. -/

/-- Transitivity of the date comparator. -/
theorem dateLE_trans : ∀ (a b c : ChartEntry), dateLE a b → dateLE b c → dateLE a c := by
  intro a b c hab hbc
  simp only [dateLE, decide_eq_true_eq] at hab hbc ⊢
  omega

/-- Totality of the date comparator. -/
theorem dateLE_total : ∀ (a b : ChartEntry), dateLE a b || dateLE b a := by
  intro a b
  simp only [dateLE, Bool.or_eq_true, decide_eq_true_eq]
  omega

/-- Transport between the Boolean comparator and the Prop ordering. -/
theorem pairwise_dateLE_iff {l : List ChartEntry} :
    l.Pairwise (fun a b => dateLE a b = true) ↔ l.Pairwise (fun a b => a.date ≤ b.date) := by
  constructor <;>
    exact fun h => h.imp (by intro a b hab; simpa [dateLE, decide_eq_true_eq] using hab)

/-- Merged sequence is a permutation of the tagged concatenation. -/
theorem chartEntriesOf_perm (H : List HistoricalPoint) (fr : Option ForecastResults) :
    (chartEntriesOf H fr).Perm
      (H.map tagHistorical ++ (forecastListOf fr).map tagForecast) :=
  List.mergeSort_perm _ _

/-- Merged sequence is sorted non-decreasingly by the underlying instant. -/
theorem chartEntriesOf_sorted_le (H : List HistoricalPoint) (fr : Option ForecastResults) :
    (chartEntriesOf H fr).Pairwise (fun a b => a.date ≤ b.date) := by
  have h := List.sorted_mergeSort dateLE_trans dateLE_total
    (H.map tagHistorical ++ (forecastListOf fr).map tagForecast)
  exact pairwise_dateLE_iff.mp h

/-- If the tagged concatenation is already sorted, the merge keeps it as is. -/
theorem chartEntriesOf_eq_of_sorted (H : List HistoricalPoint) (fr : Option ForecastResults)
    (h : (H.map tagHistorical ++ (forecastListOf fr).map tagForecast).Pairwise
      (fun a b => a.date ≤ b.date)) :
    chartEntriesOf H fr = H.map tagHistorical ++ (forecastListOf fr).map tagForecast :=
  List.mergeSort_of_sorted (pairwise_dateLE_iff.mpr h)

/-! Claim theorems. -/

/-- C9: addAction appends exactly one entry carrying the call-time timestamp
and never fails (it is a total function); the admin listing returns the log in
reverse-insertion order, so a record call followed by a listing returns the
new entry first, and recording Upload then Forecast lists Forecast first. -/
theorem c9_audit_append_and_reverse_list :
    ∀ (log : List ActionLogEntry) (t1 t2 : Int) (ty : String)
      (d d1 d2 : List (String × String)),
    (addAction log t1 ty d).length = log.length + 1 ∧
    addAction log t1 ty d = log ++ [{ timestamp := t1, actionType := ty, details := d }] ∧
    listUserActions (addAction log t1 ty d) =
      { timestamp := t1, actionType := ty, details := d } :: listUserActions log ∧
    listUserActions (addAction (addAction log t1 "Upload" d1) t2 "Forecast" d2) =
      { timestamp := t2, actionType := "Forecast", details := d2 } ::
        { timestamp := t1, actionType := "Upload", details := d1 } ::
          listUserActions log := by
  intro log t1 t2 ty d d1 d2
  refine ⟨by simp [addAction], rfl, by simp [addAction, listUserActions], ?_⟩
  simp [addAction, listUserActions]

/-- C4: the merged sequence has exactly one entry per input point, each tagged
with its origin (it is a permutation of the origin-tagged concatenation, so
every element of H and F appears exactly once and nothing else appears), its
length is the sum of the input lengths, and two empty inputs give the empty
sequence rather than an error. -/
theorem c4_merge_size_and_content (H : List HistoricalPoint) (fr : Option ForecastResults) :
    (combinedChartData H fr).length = H.length + (forecastListOf fr).length ∧
    (chartEntriesOf H fr).Perm
      (H.map tagHistorical ++ (forecastListOf fr).map tagForecast) ∧
    (combinedChartData H fr).Perm
      ((H.map tagHistorical ++ (forecastListOf fr).map tagForecast).map formatChartEntry) ∧
    combinedChartData [] none = [] := by
  refine ⟨?_, chartEntriesOf_perm H fr, (chartEntriesOf_perm H fr).map formatChartEntry, ?_⟩
  · simp [combinedChartData, chartEntriesOf]
  · simp [combinedChartData, chartEntriesOf, forecastListOf]

/-- C2 (amended): the merge sorts non-decreasingly by the underlying instant
and the display label of every entry is computed from that instant only after
the ordering step; the final entries, however, carry only the label, the
instant itself is overwritten by the formatting map. -/
theorem c2_merge_sorted_format_after_ordering
    (H : List HistoricalPoint) (fr : Option ForecastResults) :
    (chartEntriesOf H fr).Pairwise (fun a b => a.date ≤ b.date) ∧
    combinedChartData H fr =
      (chartEntriesOf H fr).map (fun e =>
        { date := formatMMMYY e.date, level := e.level, lower_ci := e.lower_ci,
          upper_ci := e.upper_ci, isHistorical := e.isHistorical,
          isForecast := e.isForecast }) := by
  exact ⟨chartEntriesOf_sorted_le H fr, rfl⟩

/-- C2 (counterexample): the underlying instant is not retained in the merged
entries: two historical sets that differ only in the instant (first versus
second of January 2024) produce identical merged output, because the label
Jan 24 is all that remains of the date.  So no export or sort on the merged
entries can recover the instant. -/
theorem c2_label_loses_instant_counterexample :
    (1704067200000 : Int) ≠ 1704153600000 ∧
    combinedChartData [⟨1704067200000, 7⟩] none =
      combinedChartData [⟨1704153600000, 7⟩] none := by
  refine ⟨by decide, ?_⟩
  simp only [combinedChartData, chartEntriesOf, forecastListOf, List.map_cons, List.map_nil,
    List.append_nil, List.mergeSort_singleton]
  decide

/-- C6: in the merged output the confidence-interval fields are present if and
only if the entry is of forecast origin; historical entries carry none (the
fields are absent, not zero). -/
theorem c6_interval_fields_iff_forecast
    (H : List HistoricalPoint) (fr : Option ForecastResults)
    (e : DisplayEntry) (he : e ∈ combinedChartData H fr) :
    ((e.lower_ci.isSome ↔ e.isForecast = true) ∧
     (e.upper_ci.isSome ↔ e.isForecast = true)) ∧
    (e.isHistorical = true → e.lower_ci = none ∧ e.upper_ci = none ∧ e.isForecast = false) ∧
    (e.isForecast = true →
      (∃ lo, e.lower_ci = some lo) ∧ (∃ hi, e.upper_ci = some hi) ∧ e.isHistorical = false) := by
  rcases List.mem_map.mp he with ⟨pre, hpre, rfl⟩
  rw [chartEntriesOf, List.mem_mergeSort] at hpre
  rcases List.mem_append.mp hpre with hmem | hmem
  · rcases List.mem_map.mp hmem with ⟨p, _, rfl⟩
    simp [tagHistorical, formatChartEntry]
  · rcases List.mem_map.mp hmem with ⟨p, _, rfl⟩
    simp [tagForecast, formatChartEntry]

/-- C6 (witness): the three-point example of the specification: January and
February historical points with a March forecast point; the merged output
contains the March entry, of forecast origin, and it alone carries intervals. -/
theorem c6_witness :
    (⟨"Mar 24", 11, some 10, some 12, false, true⟩ : DisplayEntry) ∈
      combinedChartData [⟨1704067200000, 10⟩, ⟨1706745600000, 10⟩]
        (some ⟨[⟨1709251200000, 11, 10, 12⟩], ⟨0, 0, 0⟩⟩) ∧
    (((⟨"Mar 24", 11, some 10, some 12, false, true⟩ : DisplayEntry).lower_ci.isSome ↔
        (⟨"Mar 24", 11, some 10, some 12, false, true⟩ : DisplayEntry).isForecast = true) ∧
     ((⟨"Mar 24", 11, some 10, some 12, false, true⟩ : DisplayEntry).upper_ci.isSome ↔
        (⟨"Mar 24", 11, some 10, some 12, false, true⟩ : DisplayEntry).isForecast = true)) := by
  have hsorted :
      chartEntriesOf [⟨1704067200000, 10⟩, ⟨1706745600000, 10⟩]
          (some ⟨[⟨1709251200000, 11, 10, 12⟩], ⟨0, 0, 0⟩⟩) =
        [⟨1704067200000, 10⟩, ⟨1706745600000, 10⟩].map tagHistorical ++
          [⟨1709251200000, 11, 10, 12⟩].map tagForecast :=
    chartEntriesOf_eq_of_sorted _ _ (by decide)
  have hmem :
      (⟨"Mar 24", 11, some 10, some 12, false, true⟩ : DisplayEntry) ∈
        combinedChartData [⟨1704067200000, 10⟩, ⟨1706745600000, 10⟩]
          (some ⟨[⟨1709251200000, 11, 10, 12⟩], ⟨0, 0, 0⟩⟩) := by
    rw [combinedChartData, hsorted]
    decide
  exact ⟨hmem, (c6_interval_fields_iff_forecast _ _ _ hmem).1⟩

/-- C8 (amended): the exporter contract requires a nonempty sequence, but the
code never checks: on the empty sequence the first-record schema read throws
(modelled by Except.error) with no user-visible report, while on any nonempty
sequence the artifact and the success message are produced. -/
theorem c8_exporter_empty_crashes :
    downloadCSV [] = Except.error "TypeError" ∧
    (∀ out, downloadCSV [] ≠ Except.ok out) ∧
    ∀ (r0 : CsvRecord) (rest : List CsvRecord),
      downloadCSV (r0 :: rest) =
        Except.ok
          (String.intercalate "\n" (csvHeader r0 :: (r0 :: rest).map csvRowOf),
           "CSV downloaded.") := by
  exact ⟨rfl, fun out h => by simp [downloadCSV] at h, fun r0 rest => rfl⟩

/-- C8 (counterexample): calling the exporter with the empty sequence is not
reported synchronously to the user and is not crash-free: the run ends in the
thrown TypeError, never reaching the message box. -/
theorem c8_empty_not_reported_counterexample :
    downloadCSV [] = Except.error "TypeError" ∧
    ∀ text msg, downloadCSV [] ≠ Except.ok (text, msg) := by
  exact ⟨rfl, fun text msg h => by simp [downloadCSV] at h⟩

/-- C3: for a date instant occurring in both inputs (dates unique within each
input, the upload-step invariant), the historical entry with that date occurs
exactly once in the merged sequence, the forecast entry exactly once, and the
historical one precedes the forecast one, both before and after the final
formatting map; this rests on the stability of the sort applied to the
historical-then-forecast concatenation. -/
theorem c3_tie_historical_precedes_forecast
    (H : List HistoricalPoint) (fr : Option ForecastResults)
    (hp : HistoricalPoint) (fp : ForecastPoint)
    (hpH : hp ∈ H) (fpF : fp ∈ forecastListOf fr)
    (hdate : hp.date = fp.date)
    (hndH : (H.map HistoricalPoint.date).Nodup)
    (hndF : ((forecastListOf fr).map ForecastPoint.date).Nodup) :
    (chartEntriesOf H fr).count (tagHistorical hp) = 1 ∧
    (chartEntriesOf H fr).count (tagForecast fp) = 1 ∧
    List.Sublist [tagHistorical hp, tagForecast fp] (chartEntriesOf H fr) ∧
    List.Sublist [formatChartEntry (tagHistorical hp), formatChartEntry (tagForecast fp)]
      (combinedChartData H fr) := by
  have injH : Function.Injective tagHistorical := by
    intro a b hab
    cases a; cases b
    simpa [tagHistorical, ChartEntry.mk.injEq, HistoricalPoint.mk.injEq] using hab
  have injF : Function.Injective tagForecast := by
    intro a b hab
    cases a; cases b
    simpa [tagForecast, ChartEntry.mk.injEq, ForecastPoint.mk.injEq] using hab
  have hAnodup : (H.map tagHistorical).Nodup :=
    (List.Nodup.of_map _ hndH).map injH
  have hBnodup : ((forecastListOf fr).map tagForecast).Nodup :=
    (List.Nodup.of_map _ hndF).map injF
  have hmemA : tagHistorical hp ∈ H.map tagHistorical := List.mem_map_of_mem _ hpH
  have hmemB : tagForecast fp ∈ (forecastListOf fr).map tagForecast :=
    List.mem_map_of_mem _ fpF
  have hnotB : tagHistorical hp ∉ (forecastListOf fr).map tagForecast := by
    intro hmem
    rcases List.mem_map.mp hmem with ⟨q, _, heq⟩
    simp [tagForecast, tagHistorical, ChartEntry.mk.injEq] at heq
  have hnotA : tagForecast fp ∉ H.map tagHistorical := by
    intro hmem
    rcases List.mem_map.mp hmem with ⟨q, _, heq⟩
    simp [tagForecast, tagHistorical, ChartEntry.mk.injEq] at heq
  have hperm := chartEntriesOf_perm H fr
  have hcount1 : (chartEntriesOf H fr).count (tagHistorical hp) = 1 := by
    rw [hperm.count_eq, List.count_append,
      List.count_eq_one_of_mem hAnodup hmemA, List.count_eq_zero_of_not_mem hnotB]
  have hcount2 : (chartEntriesOf H fr).count (tagForecast fp) = 1 := by
    rw [hperm.count_eq, List.count_append,
      List.count_eq_zero_of_not_mem hnotA, List.count_eq_one_of_mem hBnodup hmemB]
  have hsub : List.Sublist [tagHistorical hp, tagForecast fp]
      (H.map tagHistorical ++ (forecastListOf fr).map tagForecast) := by
    have h1 : List.Sublist [tagHistorical hp] (H.map tagHistorical) :=
      List.singleton_sublist.mpr hmemA
    have h2 : List.Sublist [tagForecast fp] ((forecastListOf fr).map tagForecast) :=
      List.singleton_sublist.mpr hmemB
    simpa using h1.append h2
  have hpair : List.Sublist [tagHistorical hp, tagForecast fp] (chartEntriesOf H fr) :=
    List.pair_sublist_mergeSort dateLE_trans dateLE_total
      (by simp [dateLE, tagHistorical, tagForecast, hdate]) hsub
  refine ⟨hcount1, hcount2, hpair, ?_⟩
  simpa using hpair.map formatChartEntry

/-- C5 (amended): when the two inputs are each sorted non-decreasingly by date
(the order the upload and forecast steps deliver), splitting the merged
sequence by origin tag reproduces the tagged images of H and F exactly, and
untagging recovers H and F themselves, values and order included. -/
theorem c5_split_by_origin_sorted_inputs
    (H : List HistoricalPoint) (fr : Option ForecastResults)
    (hH : H.Pairwise (fun a b => a.date ≤ b.date))
    (hF : (forecastListOf fr).Pairwise (fun a b => a.date ≤ b.date)) :
    (chartEntriesOf H fr).filter (fun e => e.isHistorical) = H.map tagHistorical ∧
    (chartEntriesOf H fr).filter (fun e => e.isForecast) =
      (forecastListOf fr).map tagForecast ∧
    ((chartEntriesOf H fr).filter (fun e => e.isHistorical)).map
      (fun e => ({ date := e.date, level := e.level } : HistoricalPoint)) = H ∧
    ((chartEntriesOf H fr).filter (fun e => e.isForecast)).map
      (fun e => ({ date := e.date, level := e.level, lower_ci := e.lower_ci.getD 0,
                   upper_ci := e.upper_ci.getD 0 } : ForecastPoint)) = forecastListOf fr := by
  have hperm := chartEntriesOf_perm H fr
  have hfiltA : (H.map tagHistorical).filter (fun e => e.isHistorical) = H.map tagHistorical :=
    List.filter_eq_self.mpr (by
      intro a ha
      rcases List.mem_map.mp ha with ⟨p, _, rfl⟩
      simp [tagHistorical])
  have hfiltB0 : ((forecastListOf fr).map tagForecast).filter (fun e => e.isHistorical) = [] :=
    List.filter_eq_nil_iff.mpr (by
      intro a ha
      rcases List.mem_map.mp ha with ⟨p, _, rfl⟩
      simp [tagForecast])
  have hfiltB : ((forecastListOf fr).map tagForecast).filter (fun e => e.isForecast) =
      (forecastListOf fr).map tagForecast :=
    List.filter_eq_self.mpr (by
      intro a ha
      rcases List.mem_map.mp ha with ⟨p, _, rfl⟩
      simp [tagForecast])
  have hfiltA0 : (H.map tagHistorical).filter (fun e => e.isForecast) = [] :=
    List.filter_eq_nil_iff.mpr (by
      intro a ha
      rcases List.mem_map.mp ha with ⟨p, _, rfl⟩
      simp [tagHistorical])
  have hApw : (H.map tagHistorical).Pairwise (fun a b => dateLE a b = true) :=
    pairwise_dateLE_iff.mpr (List.pairwise_map.mpr (hH.imp (by
      intro a b hab
      simpa [tagHistorical] using hab)))
  have hBpw : ((forecastListOf fr).map tagForecast).Pairwise (fun a b => dateLE a b = true) :=
    pairwise_dateLE_iff.mpr (List.pairwise_map.mpr (hF.imp (by
      intro a b hab
      simpa [tagForecast] using hab)))
  have hsubA : List.Sublist (H.map tagHistorical) (chartEntriesOf H fr) :=
    List.sublist_mergeSort dateLE_trans dateLE_total hApw
      (List.sublist_append_left _ _)
  have hsubB : List.Sublist ((forecastListOf fr).map tagForecast) (chartEntriesOf H fr) :=
    List.sublist_mergeSort dateLE_trans dateLE_total hBpw
      (List.sublist_append_right _ _)
  have hlenA : ((chartEntriesOf H fr).filter (fun e => e.isHistorical)).length =
      (H.map tagHistorical).length := by
    have := (hperm.filter (fun e => e.isHistorical)).length_eq
    rw [this, List.filter_append, hfiltA, hfiltB0, List.append_nil]
  have hlenB : ((chartEntriesOf H fr).filter (fun e => e.isForecast)).length =
      ((forecastListOf fr).map tagForecast).length := by
    have := (hperm.filter (fun e => e.isForecast)).length_eq
    rw [this, List.filter_append, hfiltA0, hfiltB]
    simp
  have heqA : (chartEntriesOf H fr).filter (fun e => e.isHistorical) = H.map tagHistorical := by
    have hs : List.Sublist (H.map tagHistorical) ((chartEntriesOf H fr).filter (fun e => e.isHistorical)) := by
      have := hsubA.filter (fun e => e.isHistorical)
      rwa [hfiltA] at this
    exact (hs.eq_of_length hlenA.symm).symm
  have heqB : (chartEntriesOf H fr).filter (fun e => e.isForecast) =
      (forecastListOf fr).map tagForecast := by
    have hs : List.Sublist ((forecastListOf fr).map tagForecast)
        ((chartEntriesOf H fr).filter (fun e => e.isForecast)) := by
      have := hsubB.filter (fun e => e.isForecast)
      rwa [hfiltB] at this
    exact (hs.eq_of_length hlenB.symm).symm
  refine ⟨heqA, heqB, ?_, ?_⟩
  · rw [heqA, List.map_map]
    exact (List.map_congr_left fun a _ => rfl).trans (List.map_id _)
  · rw [heqB, List.map_map]
    exact (List.map_congr_left fun a _ => rfl).trans (List.map_id _)

/-- C3 (witness): a concrete shared date (historical level 10, forecast level
11 at instant 5): the historical entry precedes the forecast entry in the
merged sequence. -/
theorem c3_witness :
    ((⟨5, 10⟩ : HistoricalPoint) ∈ ([⟨5, 10⟩] : List HistoricalPoint) ∧
     (⟨5, 11, 10, 12⟩ : ForecastPoint) ∈
       forecastListOf (some ⟨[⟨5, 11, 10, 12⟩], ⟨0, 0, 0⟩⟩)) ∧
    List.Sublist [tagHistorical ⟨5, 10⟩, tagForecast ⟨5, 11, 10, 12⟩]
      (chartEntriesOf [⟨5, 10⟩] (some ⟨[⟨5, 11, 10, 12⟩], ⟨0, 0, 0⟩⟩)) ∧
    (chartEntriesOf [⟨5, 10⟩] (some ⟨[⟨5, 11, 10, 12⟩], ⟨0, 0, 0⟩⟩)).count
      (tagHistorical ⟨5, 10⟩) = 1 :=
  ⟨⟨by decide, by decide⟩,
   (c3_tie_historical_precedes_forecast [⟨5, 10⟩] (some ⟨[⟨5, 11, 10, 12⟩], ⟨0, 0, 0⟩⟩)
     ⟨5, 10⟩ ⟨5, 11, 10, 12⟩ (by decide) (by decide) (by decide) (by decide) (by decide)).2.2.1,
   (c3_tie_historical_precedes_forecast [⟨5, 10⟩] (some ⟨[⟨5, 11, 10, 12⟩], ⟨0, 0, 0⟩⟩)
     ⟨5, 10⟩ ⟨5, 11, 10, 12⟩ (by decide) (by decide) (by decide) (by decide) (by decide)).1⟩

/-- C5 (counterexample): for an unsorted historical input the claim fails as
stated for every H and F: the stable sort reorders the two points, so the
origin split returns them date-sorted, not in input order. -/
theorem c5_unsorted_counterexample :
    (chartEntriesOf [⟨100, 1⟩, ⟨0, 2⟩] none).filter (fun e => e.isHistorical) ≠
      [⟨100, 1⟩, ⟨0, 2⟩].map tagHistorical := by
  have h : chartEntriesOf [⟨100, 1⟩, ⟨0, 2⟩] none
      = [tagHistorical ⟨0, 2⟩, tagHistorical ⟨100, 1⟩] := by
    simp [chartEntriesOf, forecastListOf, List.mergeSort, List.splitInTwo, List.splitAt,
          List.splitAt.go, List.merge, tagHistorical, dateLE]
  rw [h]
  decide

/-- C5 (witness): sorted concrete inputs, split reproduced exactly. -/
theorem c5_witness :
    (([⟨0, 1⟩, ⟨10, 2⟩] : List HistoricalPoint).Pairwise (fun a b => a.date ≤ b.date) ∧
     (forecastListOf (some ⟨[⟨5, 3, 2, 4⟩], ⟨0, 0, 0⟩⟩)).Pairwise
       (fun a b => a.date ≤ b.date)) ∧
    (chartEntriesOf [⟨0, 1⟩, ⟨10, 2⟩] (some ⟨[⟨5, 3, 2, 4⟩], ⟨0, 0, 0⟩⟩)).filter
      (fun e => e.isHistorical) = [⟨0, 1⟩, ⟨10, 2⟩].map tagHistorical :=
  ⟨⟨by decide, by decide⟩,
   (c5_split_by_origin_sorted_inputs [⟨0, 1⟩, ⟨10, 2⟩]
     (some ⟨[⟨5, 3, 2, 4⟩], ⟨0, 0, 0⟩⟩) (by decide) (by decide)).1⟩

/-- Rendering by key lookup coincides with rendering by position when the key
list is exactly the record key list and has no duplicates (JS object keys are
necessarily distinct). -/
theorem lookupRender_eq (r : CsvRecord) :
    ∀ (keys : List String), r.map Prod.fst = keys → keys.Nodup →
    keys.map (lookupRender r) = r.map (fun kv => renderCell kv.2) := by
  induction r with
  | nil =>
    intro keys hk _
    simp at hk
    simp [hk]
  | cons kv r ih =>
    intro keys hk hnd
    rcases keys with _ | ⟨k0, ks⟩
    · simp at hk
    · rcases kv with ⟨k, v⟩
      simp only [List.map_cons, List.cons.injEq] at hk
      rcases hk with ⟨hk0, hks⟩
      subst hk0
      rcases List.nodup_cons.mp hnd with ⟨hk0notin, hksnd⟩
      simp only [List.map_cons]
      refine congrArg₂ _ ?_ ?_
      · simp [lookupRender, List.lookup]
      · have hcongr : ks.map (lookupRender ((k, v) :: r)) = ks.map (lookupRender r) := by
          refine List.map_congr_left ?_
          intro a ha
          have hne : k ≠ a := by
            intro h
            exact hk0notin (h ▸ ha)
          simp [lookupRender, List.lookup, beq_eq_false_iff_ne.mpr (Ne.symm hne)]
        rw [hcongr, ih ks hks hksnd]

/-- C7: on a nonempty homogeneous record sequence (every record has the first
record key list, keys distinct as in any JS object), the exporter output is
exactly the spec-described text: a header of the first record keys followed by
one line per record holding the rendered field values taken in that key order,
dates as yyyy-MM-dd and other scalars by their natural string form. -/
theorem c7_csv_header_rows_format (r0 : CsvRecord) (rest : List CsvRecord)
    (hhom : ∀ r ∈ r0 :: rest, r.map Prod.fst = r0.map Prod.fst)
    (hnd : (r0.map Prod.fst).Nodup) :
    downloadCSV (r0 :: rest) = Except.ok (specCsvText r0 rest, "CSV downloaded.") := by
  simp only [downloadCSV, specCsvText, csvHeader]
  refine congrArg _ (congrArg₂ _ (congrArg _ (congrArg _ ?_)) rfl)
  refine (List.map_congr_left ?_).symm
  intro r hr
  have h := lookupRender_eq r (r0.map Prod.fst) (hhom r hr) hnd
  simp only [specCsvLine, csvRowOf]
  rw [h]

/-- C7 (witness): the spec example: one record with a date field 2024-01-01
and an integral level 10 exports as the header date,level and the single row
2024-01-01,10. -/
theorem c7_witness :
    ((∀ r ∈ [[("date", CellValue.cdate 1704067200000), ("level", CellValue.cnum 10)]],
        r.map Prod.fst =
          ([("date", CellValue.cdate 1704067200000), ("level", CellValue.cnum 10)] :
            CsvRecord).map Prod.fst) ∧
     (([("date", CellValue.cdate 1704067200000), ("level", CellValue.cnum 10)] :
        CsvRecord).map Prod.fst).Nodup) ∧
    downloadCSV [[("date", CellValue.cdate 1704067200000), ("level", CellValue.cnum 10)]] =
      Except.ok ("date,level\n2024-01-01,10", "CSV downloaded.") :=
  ⟨⟨by decide, by decide⟩,
   (c7_csv_header_rows_format
     [("date", CellValue.cdate 1704067200000), ("level", CellValue.cnum 10)] []
     (by decide) (by decide)).trans (by rfl)⟩

/-- C1 (amended): every failed operation other than upload (remote error,
transport error, or an input-precondition guard: empty dataset, blank chat
input) leaves the historical data set, the forecast set and the audit log
exactly as they were; a failed upload (wrong extension, remote error or
transport error) leaves the audit log untouched but clears the historical and
forecast sets to empty, because the handler clears them before validating or
fetching. -/
theorem c1_failed_ops_preserve_state_except_upload :
    ∀ (s : AppState) (now : Int) (err : String),
    (stateTriple (handleAnalyzeData s now (FetchOutcome.httpError err)) = stateTriple s ∧
     stateTriple (handleAnalyzeData s now (FetchOutcome.networkError err)) = stateTriple s) ∧
    (stateTriple (handleForecast s now (FetchOutcome.httpError err)) = stateTriple s ∧
     stateTriple (handleForecast s now (FetchOutcome.networkError err)) = stateTriple s) ∧
    (stateTriple (handleGenerateReport s now (FetchOutcome.httpError err)) = stateTriple s ∧
     stateTriple (handleGenerateReport s now (FetchOutcome.networkError err)) = stateTriple s) ∧
    (stateTriple (handleChatSubmit s now (FetchOutcome.httpError err)) = stateTriple s ∧
     stateTriple (handleChatSubmit s now (FetchOutcome.networkError err)) = stateTriple s) ∧
    (s.data = [] →
      (∀ o : FetchOutcome String, stateTriple (handleAnalyzeData s now o) = stateTriple s) ∧
      (∀ o : FetchOutcome (List ForecastPoint × ForecastMetrics),
        stateTriple (handleForecast s now o) = stateTriple s) ∧
      (∀ o : FetchOutcome Unit, stateTriple (handleGenerateReport s now o) = stateTriple s)) ∧
    (s.chatInput.trim = "" → ∀ o : FetchOutcome String, handleChatSubmit s now o = s) ∧
    (∀ (file : String) (outcome : FetchOutcome (List (Int × Int))),
      strEndsWith file ".xlsx" = false →
        (handleFileUpload s now (some file) outcome).userActions = s.userActions ∧
        (handleFileUpload s now (some file) outcome).data = [] ∧
        (handleFileUpload s now (some file) outcome).forecastResults = none) ∧
    (∀ file : String,
      strEndsWith file ".xlsx" = true →
        ((handleFileUpload s now (some file) (FetchOutcome.httpError err)).userActions =
            s.userActions ∧
         (handleFileUpload s now (some file) (FetchOutcome.httpError err)).data = [] ∧
         (handleFileUpload s now (some file) (FetchOutcome.httpError err)).forecastResults =
            none) ∧
        ((handleFileUpload s now (some file) (FetchOutcome.networkError err)).userActions =
            s.userActions ∧
         (handleFileUpload s now (some file) (FetchOutcome.networkError err)).data = [] ∧
         (handleFileUpload s now (some file) (FetchOutcome.networkError err)).forecastResults =
            none)) := by
  intro s now err
  refine ⟨⟨?_, ?_⟩, ⟨?_, ?_⟩, ⟨?_, ?_⟩, ⟨?_, ?_⟩, ?_, ?_, ?_, ?_⟩
  · simp only [handleAnalyzeData, stateTriple]; split <;> rfl
  · simp only [handleAnalyzeData, stateTriple]; split <;> rfl
  · simp only [handleForecast, stateTriple]; split <;> rfl
  · simp only [handleForecast, stateTriple]; split <;> rfl
  · simp only [handleGenerateReport, stateTriple]; split <;> rfl
  · simp only [handleGenerateReport, stateTriple]; split <;> rfl
  · simp only [handleChatSubmit, stateTriple]; split <;> rfl
  · simp only [handleChatSubmit, stateTriple]; split <;> rfl
  · intro hdata
    refine ⟨?_, ?_, ?_⟩ <;> intro o <;>
      simp only [handleAnalyzeData, handleForecast, handleGenerateReport, stateTriple, hdata] <;>
      rfl
  · intro hchat o
    simp only [handleChatSubmit, hchat]
    rfl
  · intro file outcome hf
    simp only [handleFileUpload, hf]
    exact ⟨rfl, rfl, rfl⟩
  · intro file hf
    simp only [handleFileUpload, hf]
    exact ⟨⟨rfl, rfl, rfl⟩, ⟨rfl, rfl, rfl⟩⟩

/-- Prior state holding one historical point and one forecast point, used to
exhibit the upload-failure mutation. -/
def c1PriorState : AppState :=
  ⟨none, [⟨0, 5⟩], none, some ⟨[⟨1, 6, 5, 7⟩], ⟨0, 0, 0⟩⟩, some 1, "en", "", [], [], false, "", "info"⟩

/-- C1 (counterexample): an upload of a .csv file is an input-precondition
failure (no request issued, error message shown), yet the historical data set
and the forecast set of the prior state are wiped, so the claim that a failed
operation never mutates the Point Model is false as stated. -/
theorem c1_upload_failure_counterexample :
    (handleFileUpload c1PriorState 0 (some "data.csv")
        (FetchOutcome.httpError "bad")).messageType = "error" ∧
    (handleFileUpload c1PriorState 0 (some "data.csv")
        (FetchOutcome.httpError "bad")).data ≠ c1PriorState.data ∧
    (handleFileUpload c1PriorState 0 (some "data.csv")
        (FetchOutcome.httpError "bad")).forecastResults ≠ c1PriorState.forecastResults := by
  decide

/-- C1 (witness): concrete instances of the amended statement: an analysis
transport error preserves the triple and failed uploads leave the data empty
with the log untouched. -/
theorem c1_witness :
    (strEndsWith "data.csv" ".xlsx" = false ∧ strEndsWith "data.xlsx" ".xlsx" = true) ∧
    stateTriple (handleAnalyzeData initialState 0 (FetchOutcome.httpError "e")) =
      stateTriple initialState ∧
    (handleFileUpload initialState 0 (some "data.csv") (FetchOutcome.ok [(0, 1)])).data = [] ∧
    (handleFileUpload initialState 0 (some "data.xlsx")
        (FetchOutcome.networkError "down")).userActions = initialState.userActions := by
  have h := c1_failed_ops_preserve_state_except_upload initialState 0 "e"
  refine ⟨⟨by decide, by decide⟩, h.1.1, ?_, ?_⟩
  · exact (h.2.2.2.2.2.2.1 "data.csv" (FetchOutcome.ok [(0, 1)]) (by decide)).2.1
  · exact ((h.2.2.2.2.2.2.2 "data.xlsx" (by decide)).2).1

/-- C10 (amended): no variant rejects every out-of-range months before
issuing.  In the clamped variant (src/frontend/src/App.js and the second
part_001 copy) every numeric input value is clamped into 1..12, inside the
declared 1..24, no handler writes the field, and the issued request carries
exactly the current field value; but clearing the input defeats the clamp:
parseInt of the empty field is NaN, Math.max(1, Math.min(12, NaN)) is NaN, so
the stored months is NaN (none) and, with data present, handleForecast issues
a request whose months is NaN (serialized null), not an integer in 1..24.
The unclamped first part_001 copy enforces nothing at all (see the
counterexample). -/
theorem c10_months_clamp_nan_and_issuance :
    ∀ (s : AppState) (n : Int) (now : Int),
    (∀ req, forecastRequestOf s = some req → req.months = s.forecastMonths) ∧
    ((setForecastMonthsClamped s (some n)).forecastMonths = some (max 1 (min 12 n)) ∧
     1 ≤ max 1 (min 12 n) ∧ max 1 (min 12 n) ≤ 12 ∧ max 1 (min 12 n) ≤ 24) ∧
    (setForecastMonthsClamped s none).forecastMonths = none ∧
    (s.data ≠ [] →
      forecastRequestOf (setForecastMonthsClamped s none) =
        some { data := s.data, months := none }) ∧
    initialState.forecastMonths = some 1 ∧
    (∀ (file : Option String) (o : FetchOutcome (List (Int × Int))),
      (handleFileUpload s now file o).forecastMonths = s.forecastMonths) ∧
    (∀ o : FetchOutcome String, (handleAnalyzeData s now o).forecastMonths = s.forecastMonths) ∧
    (∀ o : FetchOutcome (List ForecastPoint × ForecastMetrics),
      (handleForecast s now o).forecastMonths = s.forecastMonths) ∧
    (∀ o : FetchOutcome Unit, (handleGenerateReport s now o).forecastMonths = s.forecastMonths) ∧
    (∀ o : FetchOutcome String, (handleChatSubmit s now o).forecastMonths = s.forecastMonths) := by
  intro s n now
  refine ⟨?_, ?_, rfl, ?_, rfl, ?_, ?_, ?_, ?_, ?_⟩
  · intro req h
    simp only [forecastRequestOf] at h
    split at h
    · exact absurd h (by simp)
    · cases h; rfl
  · refine ⟨rfl, ?_, ?_, ?_⟩ <;> omega
  · intro hne
    have hlen : ¬ (s.data.length = 0) := by
      simpa [List.length_eq_zero] using hne
    simp [forecastRequestOf, setForecastMonthsClamped, hlen]
  · intro file o
    cases file with
    | none => rfl
    | some fileName =>
      simp only [handleFileUpload]
      split
      · cases o <;> rfl
      · rfl
  · intro o
    simp only [handleAnalyzeData]
    split
    · rfl
    · cases o <;> rfl
  · intro o
    simp only [handleForecast]
    split
    · rfl
    · cases o <;> rfl
  · intro o
    simp only [handleGenerateReport]
    split
    · rfl
    · cases o <;> rfl
  · intro o
    simp only [handleChatSubmit]
    split
    · rfl
    · cases o <;> rfl

/-- C10 (counterexample): the claim fails on the program.  In the unclamped
variant, typing 0 or 25 into the months input makes a request with months 0,
respectively 25, both outside the declared 1..24; and even in the clamped
variant, clearing the input stores NaN and a request is issued whose months
is no integer at all, so it lies in no integer range. -/
theorem c10_unclamped_counterexample :
    (forecastRequestOf
        (setForecastMonthsUnclamped
          (handleFileUpload initialState 0 (some "d.xlsx") (FetchOutcome.ok [(0, 1)]))
          (some 0)) =
      some ⟨[⟨0, 1⟩], some 0⟩ ∧
     ¬ (1 ≤ (0 : Int))) ∧
    (forecastRequestOf
        (setForecastMonthsUnclamped
          (handleFileUpload initialState 0 (some "d.xlsx") (FetchOutcome.ok [(0, 1)]))
          (some 25)) =
      some ⟨[⟨0, 1⟩], some 25⟩ ∧
     ¬ ((25 : Int) ≤ 24)) ∧
    (forecastRequestOf
        (setForecastMonthsClamped
          (handleFileUpload initialState 0 (some "d.xlsx") (FetchOutcome.ok [(0, 1)]))
          none) =
      some ⟨[⟨0, 1⟩], none⟩ ∧
     ∀ m : Int, 1 ≤ m → m ≤ 24 →
       (⟨[⟨0, 1⟩], none⟩ : ForecastRequest).months ≠ some m) :=
  ⟨⟨by decide, by decide⟩, ⟨by decide, by decide⟩,
   ⟨by decide, fun m _ _ h => Option.noConfusion h⟩⟩

/-- C10 (witness): clamping the numeric input 99 stores months 12, inside both
ranges; the issued request months equals the forecastMonths state; and with
data present a cleared input leads to an issued request with NaN months. -/
theorem c10_witness :
    ((setForecastMonthsClamped initialState (some 99)).forecastMonths =
        some (max 1 (min 12 (99 : Int))) ∧
     max 1 (min 12 (99 : Int)) = 12 ∧
     1 ≤ max 1 (min 12 (99 : Int)) ∧ max 1 (min 12 (99 : Int)) ≤ 24) ∧
    (forecastRequestOf
        (handleFileUpload initialState 0 (some "d.xlsx") (FetchOutcome.ok [(5, 9)])) =
      some ⟨[⟨5, 9⟩], some 1⟩ ∧
     (⟨[⟨5, 9⟩], some 1⟩ : ForecastRequest).months =
       (handleFileUpload initialState 0 (some "d.xlsx")
         (FetchOutcome.ok [(5, 9)])).forecastMonths) ∧
    ((handleFileUpload initialState 0 (some "d.xlsx")
        (FetchOutcome.ok [(5, 9)])).data ≠ [] ∧
     forecastRequestOf
        (setForecastMonthsClamped
          (handleFileUpload initialState 0 (some "d.xlsx") (FetchOutcome.ok [(5, 9)]))
          none) =
      some ⟨[⟨5, 9⟩], none⟩) := by
  have h1 := c10_months_clamp_nan_and_issuance initialState 99 0
  have h2 := c10_months_clamp_nan_and_issuance
    (handleFileUpload initialState 0 (some "d.xlsx") (FetchOutcome.ok [(5, 9)])) 0 0
  refine ⟨⟨h1.2.1.1, by decide, h1.2.1.2.1, h1.2.1.2.2.2⟩,
    ⟨by decide, h2.1 ⟨[⟨5, 9⟩], some 1⟩ (by decide)⟩, ⟨by decide, ?_⟩⟩
  exact (h2.2.2.2.1 (by decide)).trans (by decide)

/-- C8 (witness): the empty call ends in the error value, differs from any
reported-ok outcome, and a concrete nonempty call produces the file text. -/
theorem c8_witness :
    downloadCSV [] = Except.error "TypeError" ∧
    downloadCSV [] ≠ Except.ok ("", "") ∧
    downloadCSV [[("level", CellValue.cnum 3)]] =
      Except.ok ("level\n3", "CSV downloaded.") :=
  ⟨c8_exporter_empty_crashes.1, c8_exporter_empty_crashes.2.1 ("", ""),
   (c8_exporter_empty_crashes.2.2 [("level", CellValue.cnum 3)] []).trans (by rfl)⟩
